import Mathlib

/-!
Shallow embedding of the session lifecycle and engagement-aggregation engine
of the emotion/engagement backend: the `sessions`, `session_users` and
`engagement_metrics` tables (backend/src/database/migrate.js), the session
routes (backend/src/routes/sessions.js), the metric storage and summary
queries (services/sessionManager.js), the class-overview alert generation
(routes/metrics.js) and the session report (routes/reports.js).

Timestamps are modelled as natural numbers (seconds); SQL numerics as `ℚ`;
SQL `NULL` as `Option`.  Each route handler becomes a pure function from a
database state to either an error code (the HTTP error it answers with) or
the updated database state.
-/

namespace EmotionEngagement

/-- Roles from the `users`/`session_users` CHECK constraints in migrate.js. -/
inductive Role where
  | teacher
  | student
  | admin
deriving DecidableEq

/-- Session status from the `sessions` CHECK constraint in migrate.js. -/
inductive SessionStatus where
  | active
  | ended
  | cancelled
deriving DecidableEq

/-- A row of the `sessions` table (the columns the routes read/write). -/
structure Session where
  id : Nat
  teacher_id : Nat
  max_students : Nat
  status : SessionStatus
  end_time : Option Nat
deriving DecidableEq

/-- A row of the `session_users` table. -/
structure SessionUser where
  session_id : Nat
  user_id : Nat
  role : Role
  joined_at : Nat
  left_at : Option Nat
deriving DecidableEq

/-- A row of the `engagement_metrics` table. -/
structure MetricRow where
  session_id : Nat
  user_id : Nat
  emotion : String
  confidence : ℚ
  engagement_score : ℚ
  timestamp : Nat
deriving DecidableEq

/-- The database state: the three tables the claims are about. -/
structure DB where
  sessions : List Session
  session_users : List SessionUser
  metrics : List MetricRow
deriving DecidableEq

/-- Error codes returned by the route handlers (the `code` fields of the
JSON error responses, plus the CHECK-constraint violation raised by the
database on an out-of-bounds metric INSERT). -/
inductive ApiError where
  | sessionNotFound
  | userAlreadyInSession
  | sessionFull
  | userNotInSession
  | endPermissionDenied
  | sessionAlreadyEnded
  | accessDenied
  | checkViolation
  | undefinedColumn
  | notMember
deriving DecidableEq

deriving instance DecidableEq for Except

/-- `SELECT * FROM sessions WHERE id = $1 AND status = 'active'`, first row
(sessions.js, POST /:id/join, lines 240-243). -/
def findActiveSession (db : DB) (sid : Nat) : Option Session :=
  db.sessions.find? (fun s => s.id = sid ∧ s.status = SessionStatus.active)

/-- `SELECT teacher_id, status FROM sessions WHERE id = $1`, first row. -/
def findSession (db : DB) (sid : Nat) : Option Session :=
  db.sessions.find? (fun s => s.id = sid)

/-- `SELECT * FROM session_users WHERE session_id = $1 AND user_id = $2`
(membership check used by join, leave, and the report access gate).  Note
it does not filter on `left_at`. -/
def membershipRows (db : DB) (sid uid : Nat) : List SessionUser :=
  db.session_users.filter (fun r => r.session_id = sid ∧ r.user_id = uid)

/-- `SELECT COUNT(*) FROM session_users WHERE session_id = $1` — the rows
the join capacity check counts (all rows, departed ones included). -/
def sessionRows (db : DB) (sid : Nat) : List SessionUser :=
  db.session_users.filter (fun r => r.session_id = sid)

/-- The spec-side notion of active participants: membership rows whose
`left_at` is NULL.  The source's capacity check does not use this. -/
def activeParticipantCount (db : DB) (sid : Nat) : Nat :=
  ((sessionRows db sid).filter (fun r => r.left_at = none)).length

/-- POST /api/sessions/:id/join (sessions.js lines 233-310, the first of
the two identically-routed handlers, which Express dispatches to):
session must exist and be active (else 404), user must not already have a
membership row (else USER_ALREADY_IN_SESSION), and the total count of
`session_users` rows for the session must be below `max_students` (else
SESSION_FULL); then a row with `left_at = NULL` is inserted. -/
def joinSession (db : DB) (sid uid : Nat) (r : Role) (now : Nat) :
    Except ApiError DB :=
  match findActiveSession db sid with
  | none => .error .sessionNotFound
  | some s =>
    if membershipRows db sid uid ≠ [] then .error .userAlreadyInSession
    else if s.max_students ≤ (sessionRows db sid).length then .error .sessionFull
    else .ok { db with
      session_users := db.session_users ++ [⟨sid, uid, r, now, none⟩] }

/-- POST /api/sessions/:id/leave (sessions.js lines 696-737): requires a
membership row (any `left_at`), then `UPDATE session_users SET left_at =
CURRENT_TIMESTAMP` — the row is kept, never deleted. -/
def leaveSession (db : DB) (sid uid now : Nat) : Except ApiError DB :=
  if membershipRows db sid uid = [] then .error .userNotInSession
  else .ok { db with
    session_users := db.session_users.map (fun r =>
      if r.session_id = sid ∧ r.user_id = uid then { r with left_at := some now }
      else r) }

/-- POST /api/sessions/:id/end (sessions.js lines 559-614): 404 if the
session is missing, 403 unless the caller is the owning teacher, 400
SESSION_ALREADY_ENDED only when `status = 'ended'` (a cancelled session
passes this check), otherwise `UPDATE sessions SET status='ended',
end_time=CURRENT_TIMESTAMP WHERE id = $2`. -/
def endSessionRoute (db : DB) (sid uid now : Nat) : Except ApiError DB :=
  match findSession db sid with
  | none => .error .sessionNotFound
  | some s =>
    if s.teacher_id ≠ uid then .error .endPermissionDenied
    else if s.status = SessionStatus.ended then .error .sessionAlreadyEnded
    else .ok { db with
      sessions := db.sessions.map (fun x =>
        if x.id = sid then { x with status := SessionStatus.ended, end_time := some now }
        else x) }

/-- SessionManager.endSession (services/sessionManager.js lines 127-140):
`UPDATE sessions SET end_time = CURRENT_TIMESTAMP WHERE id = $1` — it sets
`end_time` but leaves `status` untouched. -/
def endSessionManager (db : DB) (sid now : Nat) : DB :=
  { db with
    sessions := db.sessions.map (fun x =>
      if x.id = sid then { x with end_time := some now } else x) }

/-- The engagement_metrics CHECK constraints (migrate.js lines 59-71):
`confidence >= 0 AND confidence <= 1`, `engagement_score >= 0 AND
engagement_score <= 1`. -/
def metricWithinBounds (m : MetricRow) : Prop :=
  0 ≤ m.confidence ∧ m.confidence ≤ 1 ∧
    0 ≤ m.engagement_score ∧ m.engagement_score ≤ 1

instance (m : MetricRow) : Decidable (metricWithinBounds m) := by
  unfold metricWithinBounds; infer_instance

/-- SessionManager.storeEngagementMetric (services/sessionManager.js lines
6-29): a bare INSERT into engagement_metrics; the function performs no
validation of its own and no membership check.  This definition models
only the VALUE constraints: the row is accepted when it satisfies the
CHECK bounds and raises a constraint violation otherwise, reading the
source's `user_id` insert column as the table's student column.  The
source's column list in fact does not match the schema, which makes every
real INSERT fail before any CHECK is evaluated; that column-resolution
layer is modelled separately in `storeEngagementMetricSchema` below. -/
def storeEngagementMetric (db : DB) (m : MetricRow) : Except ApiError DB :=
  if metricWithinBounds m then .ok { db with metrics := db.metrics ++ [m] }
  else .error .checkViolation

/-- The socket `engagement_update` path (server index, lines 250-265):
the store call is fire-and-forget, so a failed INSERT leaves the state
unchanged while a successful one appends the row. -/
def ingestMetric (db : DB) (m : MetricRow) : DB :=
  match storeEngagementMetric db m with
  | .ok db' => db'
  | .error _ => db

/-- Ingest a sequence of metric events in order. -/
def ingestAll (db : DB) (ms : List MetricRow) : DB :=
  ms.foldl ingestMetric db

/-- The columns of the engagement_metrics table as created by migrate.js
(lines 59-71): note `student_id`, and no `user_id` column. -/
def engagementMetricsColumns : List String :=
  ["id", "session_id", "student_id", "timestamp", "emotion", "confidence",
   "engagement_score", "face_detected", "created_at"]

/-- The column list named by the INSERT in
SessionManager.storeEngagementMetric (services/sessionManager.js lines
9-11): it writes `user_id`, which the table does not have. -/
def storeInsertColumns : List String :=
  ["session_id", "user_id", "emotion", "confidence", "engagement_score",
   "timestamp"]

/-- Whether every column named by the INSERT exists in the table; the
database resolves column names before evaluating any constraint. -/
def insertColumnsValid : Prop :=
  ∀ c ∈ storeInsertColumns, c ∈ engagementMetricsColumns

instance : Decidable insertColumnsValid := by
  unfold insertColumnsValid; infer_instance

/-- SessionManager.storeEngagementMetric as executed against the schema
migrate.js actually creates: the database first resolves the INSERT's
column list (an undefined column aborts the statement before any value is
considered), then enforces the CHECK constraints on the values. -/
def storeEngagementMetricSchema (db : DB) (m : MetricRow) : Except ApiError DB :=
  if ¬ insertColumnsValid then .error .undefinedColumn
  else if metricWithinBounds m then .ok { db with metrics := db.metrics ++ [m] }
  else .error .checkViolation

/-- The fire-and-forget socket path over the schema-level INSERT model: a
failed INSERT leaves the state unchanged. -/
def ingestMetricSchema (db : DB) (m : MetricRow) : DB :=
  match storeEngagementMetricSchema db m with
  | .ok db' => db'
  | .error _ => db

/-- `SELECT ... FROM engagement_metrics WHERE session_id = $1`. -/
def sessionMetrics (db : DB) (sid : Nat) : List MetricRow :=
  db.metrics.filter (fun m => m.session_id = sid)

/-- SQL `AVG`: NULL on an empty set, otherwise the arithmetic mean. -/
def sqlAvg (xs : List ℚ) : Option ℚ :=
  if xs = [] then none else some (xs.sum / (xs.length : ℚ))

/-- Result row of SessionManager.getSessionEngagementSummary. -/
structure EngagementSummary where
  total_metrics : Nat
  avg_engagement : Option ℚ
  active_participants : Nat
deriving DecidableEq

/-- SessionManager.getSessionEngagementSummary (services/sessionManager.js
lines 79-98): `COUNT(*)`, `AVG(engagement_score)`, `COUNT(DISTINCT
user_id)` over the session's metric rows, with the query's `user_id`
column read as the table's student column (as with the INSERT, the
source's column name does not match the migrate.js schema). -/
def getSessionEngagementSummary (db : DB) (sid : Nat) : EngagementSummary :=
  { total_metrics := (sessionMetrics db sid).length
  , avg_engagement := sqlAvg ((sessionMetrics db sid).map (fun m => m.engagement_score))
  , active_participants := ((sessionMetrics db sid).map (fun m => m.user_id)).dedup.length }

/-- The emotion histogram of the class-overview endpoint (routes/metrics.js
lines 116-141): counts per emotion over the recent metric rows, for the
five known emotion keys. -/
structure EmotionDistribution where
  attentive : Nat
  confused : Nat
  bored : Nat
  neutral : Nat
  happy : Nat
deriving DecidableEq

/-- Build the emotion distribution from a set of metric rows (the GROUP BY
emotion query plus the hasOwnProperty filter onto the five known keys). -/
def emotionDistributionOf (ms : List MetricRow) : EmotionDistribution :=
  { attentive := (ms.filter (fun m => m.emotion = "attentive")).length
  , confused := (ms.filter (fun m => m.emotion = "confused")).length
  , bored := (ms.filter (fun m => m.emotion = "bored")).length
  , neutral := (ms.filter (fun m => m.emotion = "neutral")).length
  , happy := (ms.filter (fun m => m.emotion = "happy")).length }

/-- Alert string pushed when `emotionDistribution.confused > 20`. -/
def confusionAlert : String :=
  "High confusion detected. Consider slowing down or providing examples."

/-- Alert string pushed when `emotionDistribution.bored > 30`. -/
def boredomAlert : String :=
  "Students seem disengaged. Try an interactive activity or poll."

/-- Alert string pushed when `avg_engagement < 60`. -/
def lowEngagementAlert : String :=
  "Overall engagement is low. Consider changing the topic or format."

/-- The alert generation of GET /api/metrics/class-overview
(routes/metrics.js lines 143-153).  The thresholds compare the raw counts
(`confused > 20`, `bored > 30`), not percentage shares, and the JavaScript
comparison `avg_engagement < 60` coerces a NULL average to 0 (so it is
true when there are no recent metrics). -/
def generateAlerts (dist : EmotionDistribution) (avgEngagement : Option ℚ) :
    List String :=
  (if 20 < dist.confused then [confusionAlert] else []) ++
    (if 30 < dist.bored then [boredomAlert] else []) ++
      (if avgEngagement.getD 0 < 60 then [lowEngagementAlert] else [])

/-- `DATE_TRUNC('minute', timestamp)`: the timestamp floored to the
one-minute bucket width. -/
def bucketKeyFn (ts : Nat) : Nat := ts / 60 * 60

/-- A row of the time_data query of the session report. -/
structure TrendBucket where
  time_bucket : Nat
  metric_count : Nat
  avg_engagement : Option ℚ
deriving DecidableEq

/-- The time_data query of GET /api/reports/session/:sessionId
(routes/reports.js lines 121-131): GROUP BY `DATE_TRUNC('minute',
timestamp)` with `COUNT(*)` and `AVG(engagement_score)` per bucket
(bucket order is not modelled; no claim depends on it). -/
def timeData (db : DB) (sid : Nat) : List TrendBucket :=
  ((sessionMetrics db sid).map (fun m => bucketKeyFn m.timestamp)).dedup.map
    (fun k =>
      let bucket := (sessionMetrics db sid).filter
        (fun m => bucketKeyFn m.timestamp == k)
      { time_bucket := k
      , metric_count := bucket.length
      , avg_engagement := sqlAvg (bucket.map (fun m => m.engagement_score)) })

/-- The overall_stats `COUNT(*) as total_metrics` of the session report
(routes/reports.js lines 134-144). -/
def totalMetrics (db : DB) (sid : Nat) : Nat :=
  (sessionMetrics db sid).length

/-- The report payload of GET /api/reports/session/:sessionId (the pieces
the claims are about). -/
structure SessionReport where
  session : Session
  participants : List SessionUser
  time_data : List TrendBucket
  total_metrics : Nat
deriving DecidableEq

/-- GET /api/reports/session/:sessionId (routes/reports.js lines 54-164):
FIRST the access gate (`SELECT * FROM session_users WHERE session_id AND
user_id`; empty → 403 SESSION_ACCESS_DENIED), THEN the session lookup
(empty → 404 SESSION_NOT_FOUND), then the report is assembled. -/
def generateSessionReport (db : DB) (sid uid : Nat) :
    Except ApiError SessionReport :=
  if membershipRows db sid uid = [] then .error .accessDenied
  else
    match findSession db sid with
    | none => .error .sessionNotFound
    | some s =>
      .ok { session := s
          , participants := sessionRows db sid
          , time_data := timeData db sid
          , total_metrics := totalMetrics db sid }

/-- The spec's session invariant: `end_time` set iff `status ≠ active`. -/
def sessionInv (s : Session) : Prop :=
  s.end_time ≠ none ↔ s.status ≠ SessionStatus.active

instance (s : Session) : Decidable (sessionInv s) := by
  unfold sessionInv; infer_instance

/-- Helper: an out-of-bounds metric INSERT raises a CHECK violation. -/
theorem store_invalid (db : DB) (m : MetricRow) (h : ¬ metricWithinBounds m) :
    storeEngagementMetric db m = .error .checkViolation := by
  unfold storeEngagementMetric
  rw [if_neg h]

/-- Helper: the fire-and-forget ingestion of an out-of-bounds metric
leaves the database unchanged. -/
theorem ingest_invalid (db : DB) (m : MetricRow) (h : ¬ metricWithinBounds m) :
    ingestMetric db m = db := by
  unfold ingestMetric
  rw [store_invalid db m h]

/-! ### C1: class-overview alert thresholds -/

/-- Ten students in session 1, each with one recent metric; exactly three
report `confused`, the rest `attentive`; all engagement scores 0.7. -/
def msTenStudents : List MetricRow :=
  [⟨1, 1, "confused", 9/10, 7/10, 0⟩, ⟨1, 2, "confused", 9/10, 7/10, 0⟩,
   ⟨1, 3, "confused", 9/10, 7/10, 0⟩, ⟨1, 4, "attentive", 9/10, 7/10, 0⟩,
   ⟨1, 5, "attentive", 9/10, 7/10, 0⟩, ⟨1, 6, "attentive", 9/10, 7/10, 0⟩,
   ⟨1, 7, "attentive", 9/10, 7/10, 0⟩, ⟨1, 8, "attentive", 9/10, 7/10, 0⟩,
   ⟨1, 9, "attentive", 9/10, 7/10, 0⟩, ⟨1, 10, "attentive", 9/10, 7/10, 0⟩]

/-- C1 counterexample: with 10 active students of whom 3 report
`confused` (a 30% share) and an overall average engagement of 75, the
class-overview evaluation does NOT emit the confusion alert, because the
source compares the raw confused count against 20, not the share against
20%. -/
theorem confusion_alert_not_emitted_at_three_of_ten :
    (emotionDistributionOf msTenStudents).confused = 3 ∧
      (msTenStudents.map (fun m => m.user_id)).dedup.length = 10 ∧
        confusionAlert ∉ generateAlerts (emotionDistributionOf msTenStudents) (some 75) := by
  refine ⟨by decide, by decide, ?_⟩
  have h : generateAlerts (emotionDistributionOf msTenStudents) (some 75) = [] := by
    unfold generateAlerts
    rw [if_neg (by decide), if_neg (by decide), if_neg (by norm_num)]
    rfl
  rw [h]
  exact List.not_mem_nil _

/-- C1 (amended): the Alert Evaluator emits the confusion alert exactly
when the raw count of `confused` metrics exceeds 20, the boredom alert
exactly when the raw `bored` count exceeds 30 (absolute counts, not
shares of active students), and the low-engagement alert exactly when the
average engagement is below 60, a NULL average counting as 0. -/
theorem classOverview_alerts_iff (dist : EmotionDistribution) (avg : Option ℚ) :
    (confusionAlert ∈ generateAlerts dist avg ↔ 20 < dist.confused) ∧
      (boredomAlert ∈ generateAlerts dist avg ↔ 30 < dist.bored) ∧
        (lowEngagementAlert ∈ generateAlerts dist avg ↔ avg.getD 0 < 60) := by
  have h1 : confusionAlert ≠ boredomAlert := by decide
  have h2 : confusionAlert ≠ lowEngagementAlert := by decide
  have h3 : boredomAlert ≠ confusionAlert := by decide
  have h4 : boredomAlert ≠ lowEngagementAlert := by decide
  have h5 : lowEngagementAlert ≠ confusionAlert := by decide
  have h6 : lowEngagementAlert ≠ boredomAlert := by decide
  unfold generateAlerts
  split_ifs with hc hb he <;>
    simp_all [List.mem_append, List.mem_singleton]

/-! ### C2: engagement-score scale vs the schema CHECK constraint -/

/-- An active session 1 owned by teacher 100, with student 2 joined and no
metrics recorded yet. -/
def dbScale : DB :=
  { sessions := [⟨1, 100, 50, .active, none⟩]
  , session_users := [⟨1, 100, .teacher, 0, none⟩, ⟨1, 2, .student, 0, none⟩]
  , metrics := [] }

/-- The spec scenario's three events for student 2: engagement scores 80,
60, 100 (the 0-100 scale used by the frame processor and the dashboard
thresholds). -/
def scaleEvents : List MetricRow :=
  [⟨1, 2, "neutral", 9/10, 80, 0⟩, ⟨1, 2, "neutral", 9/10, 60, 30⟩,
   ⟨1, 2, "neutral", 9/10, 100, 60⟩]

/-- C2: the schema CHECK constraint `engagement_score >= 0 AND
engagement_score <= 1` rejects every event of the spec scenario (scores
80, 60, 100), so nothing is recorded and the summary average is NULL, not
80 — the code's own frame processor generates scores in 60-100 and the
dashboard compares the average against 60, contradicting its own schema. -/
theorem engagement_scale_mismatch :
    (ingestAll dbScale scaleEvents).metrics = [] ∧
      (getSessionEngagementSummary (ingestAll dbScale scaleEvents) 1).avg_engagement
          ≠ some 80 ∧
        (getSessionEngagementSummary (ingestAll dbScale scaleEvents) 1).avg_engagement
            = none ∧
          storeEngagementMetric dbScale ⟨1, 2, "neutral", 9/10, 80, 0⟩
              = .error .checkViolation := by
  have h80 : ¬ metricWithinBounds ⟨1, 2, "neutral", 9/10, 80, 0⟩ :=
    fun h => absurd h.2.2.2 (by norm_num)
  have h60 : ¬ metricWithinBounds ⟨1, 2, "neutral", 9/10, 60, 30⟩ :=
    fun h => absurd h.2.2.2 (by norm_num)
  have h100 : ¬ metricWithinBounds ⟨1, 2, "neutral", 9/10, 100, 60⟩ :=
    fun h => absurd h.2.2.2 (by norm_num)
  have hall : ingestAll dbScale scaleEvents = dbScale := by
    unfold ingestAll scaleEvents
    simp only [List.foldl_cons, List.foldl_nil]
    rw [ingest_invalid _ _ h80, ingest_invalid _ _ h60, ingest_invalid _ _ h100]
  refine ⟨by rw [hall]; rfl, ?_, ?_, store_invalid _ _ h80⟩ <;>
    · rw [hall]
      simp [getSessionEngagementSummary, sessionMetrics, sqlAvg, dbScale]

/-! ### C3: join capacity check -/

/-- A session with `max_students = 1` whose only membership row has
departed (`left_at` set), so its active participant count is 0. -/
def dbDeparted : DB :=
  { sessions := [⟨1, 100, 1, .active, none⟩]
  , session_users := [⟨1, 2, .student, 0, some 5⟩]
  , metrics := [] }

/-- C3 counterexample: the capacity check counts ALL membership rows,
departed ones included — a join into a session with 0 active participants
(but one departed row) and `max_students = 1` fails with SESSION_FULL,
refuting "joins only count active (not departed) participants against the
limit". -/
theorem join_counts_departed_rows :
    activeParticipantCount dbDeparted 1 = 0 ∧
      (sessionRows dbDeparted 1).length = 1 ∧
        joinSession dbDeparted 1 3 .student 10 = .error .sessionFull := by
  decide

/-- C3 (amended): for a new user (no membership row) joining an active
session, whenever the active participant count is at least
`max_students`, the join fails with SESSION_FULL (and, the handler
returning before any INSERT, the roster is unchanged); this holds because
the capacity check counts all membership rows, of which the active ones
are a subset. -/
theorem join_full_when_capacity_reached (db : DB) (sid uid now : Nat) (r : Role)
    (s : Session) (h1 : findActiveSession db sid = some s)
    (h2 : membershipRows db sid uid = [])
    (h3 : s.max_students ≤ activeParticipantCount db sid) :
    joinSession db sid uid r now = .error .sessionFull := by
  simp only [joinSession, h1]
  rw [if_neg (by simp [h2]),
    if_pos (le_trans h3 (List.length_filter_le _ (sessionRows db sid)))]

/-- A session at capacity: `max_students = 1` and one active member. -/
def dbAtCapacity : DB :=
  { sessions := [⟨1, 100, 1, .active, none⟩]
  , session_users := [⟨1, 2, .student, 0, none⟩]
  , metrics := [] }

/-- Witness for `join_full_when_capacity_reached` at a concrete input. -/
theorem join_full_when_capacity_reached_witness :
    joinSession dbAtCapacity 1 3 Role.student 10 = .error .sessionFull :=
  join_full_when_capacity_reached dbAtCapacity 1 3 10 .student
    ⟨1, 100, 1, .active, none⟩ (by decide) (by decide) (by decide)

/-! ### C4: metric ingestion after leave -/

/-- Session 1 with teacher 100 and student 2 who has left
(`left_at = 5`). -/
def dbLeft : DB :=
  { sessions := [⟨1, 100, 50, .active, none⟩]
  , session_users := [⟨1, 100, .teacher, 0, none⟩, ⟨1, 2, .student, 0, some 5⟩]
  , metrics := [] }

/-- An in-bounds metric event submitted by student 2 after leaving. -/
def evtAfterLeave : MetricRow := ⟨1, 2, "happy", 9/10, 1/2, 6⟩

/-- C4 counterexample: student 2 has left session 1 (every membership row
for them has `left_at` set), yet the immediately following metric
submission is NOT rejected with NotMember: it fails with the
undefined-column database error (the INSERT writes `user_id`, which
engagement_metrics does not have) — and the identical submission by the
still-active teacher 100 fails with the very same error, so no membership
validation takes place anywhere on the ingestion path. -/
theorem metric_after_leave_fails_without_membership_check :
    (∀ r ∈ membershipRows dbLeft 1 2, r.left_at ≠ none) ∧
      storeEngagementMetricSchema dbLeft evtAfterLeave = .error .undefinedColumn ∧
        storeEngagementMetricSchema dbLeft evtAfterLeave ≠ .error .notMember ∧
          (∃ r ∈ membershipRows dbLeft 1 100, r.left_at = none) ∧
            storeEngagementMetricSchema dbLeft ⟨1, 100, "happy", 9/10, 1/2, 6⟩
                = .error .undefinedColumn := by
  decide

/-- C4 (amended): a leave followed by an immediate submitMetric for that
student is indeed not recorded, but not with NotMember and not because of
any membership validation: the ingestion path checks no membership at
all, and the INSERT fails with an undefined-column error for every
database state and every event alike — departed student or active member
— because it names a `user_id` column that engagement_metrics does not
have, so no metric event is ever appended to the log. -/
theorem metric_insert_fails_for_every_submitter (db : DB) (m : MetricRow) :
    storeEngagementMetricSchema db m = .error .undefinedColumn ∧
      storeEngagementMetricSchema db m ≠ .error .notMember ∧
        ingestMetricSchema db m = db := by
  have hcols : ¬ insertColumnsValid := by decide
  have hstore : storeEngagementMetricSchema db m = .error .undefinedColumn := by
    unfold storeEngagementMetricSchema
    rw [if_pos hcols]
  refine ⟨hstore, by rw [hstore]; decide, ?_⟩
  unfold ingestMetricSchema
  rw [hstore]

/-! ### C5: out-of-bounds metric rejected, aggregate unchanged -/

/-- A cancelled session owned by teacher 100. -/
def dbCancelled : DB :=
  { sessions := [⟨1, 100, 50, .cancelled, some 3⟩]
  , session_users := [⟨1, 100, .teacher, 0, none⟩]
  , metrics := [] }

/-- C6 counterexample: ending a CANCELLED session does not fail with
SESSION_ALREADY_ENDED — the handler only rejects `status = 'ended'`, so
the end succeeds and moves the cancelled session to `ended`. -/
theorem end_cancelled_session_succeeds :
    endSessionRoute dbCancelled 1 100 9
        = .ok { dbCancelled with sessions := [⟨1, 100, 50, .ended, some 9⟩] } := by
  decide

/-- C6 (amended): for an existing session, end fails with 403 when the
caller is not the owning teacher; it fails with SESSION_ALREADY_ENDED
exactly when `status = 'ended'` (a cancelled session is NOT rejected);
otherwise it succeeds and every stored row of that session gets
`status = 'ended'` and `end_time` set. -/
theorem end_route_spec (db : DB) (sid uid now : Nat) (s : Session)
    (h : findSession db sid = some s) :
    (s.teacher_id ≠ uid →
        endSessionRoute db sid uid now = .error .endPermissionDenied) ∧
      (s.teacher_id = uid → s.status = SessionStatus.ended →
        endSessionRoute db sid uid now = .error .sessionAlreadyEnded) ∧
        (s.teacher_id = uid → s.status ≠ SessionStatus.ended →
          ∀ db', endSessionRoute db sid uid now = .ok db' →
            ∀ x ∈ db'.sessions, x.id = sid →
              x.status = SessionStatus.ended ∧ x.end_time = some now) := by
  refine ⟨?_, ?_, ?_⟩
  · intro hne
    simp only [endSessionRoute, h]
    rw [if_pos hne]
  · intro heq hended
    simp only [endSessionRoute, h]
    rw [if_neg (by simp [heq]), if_pos hended]
  · intro heq hnot db' hok x hx hid
    have hok' : endSessionRoute db sid uid now
        = .ok { db with sessions := db.sessions.map (fun y =>
            if y.id = sid then
              { y with status := SessionStatus.ended, end_time := some now }
            else y) } := by
      simp only [endSessionRoute, h]
      rw [if_neg (by simp [heq]), if_neg hnot]
    rw [hok'] at hok
    injection hok with hdb
    subst hdb
    obtain ⟨a, ha, rfl⟩ := List.mem_map.1 hx
    by_cases hcase : a.id = sid
    · rw [if_pos hcase]
      exact ⟨rfl, rfl⟩
    · rw [if_neg hcase] at hid
      exact absurd hid hcase

/-- Witness for `end_route_spec` at the concrete cancelled session. -/
theorem end_route_spec_witness :
    ((⟨1, 100, 50, .cancelled, some 3⟩ : Session).teacher_id ≠ 100 →
        endSessionRoute dbCancelled 1 100 9 = .error .endPermissionDenied) ∧
      ((⟨1, 100, 50, .cancelled, some 3⟩ : Session).teacher_id = 100 →
        (⟨1, 100, 50, .cancelled, some 3⟩ : Session).status = SessionStatus.ended →
        endSessionRoute dbCancelled 1 100 9 = .error .sessionAlreadyEnded) ∧
        ((⟨1, 100, 50, .cancelled, some 3⟩ : Session).teacher_id = 100 →
          (⟨1, 100, 50, .cancelled, some 3⟩ : Session).status ≠ SessionStatus.ended →
          ∀ db', endSessionRoute dbCancelled 1 100 9 = .ok db' →
            ∀ x ∈ db'.sessions, x.id = 1 →
              x.status = SessionStatus.ended ∧ x.end_time = some 9) :=
  end_route_spec dbCancelled 1 100 9 ⟨1, 100, 50, .cancelled, some 3⟩ (by decide)

/-! ### C7: the session invariant under the engine's operations -/

/-- An active session with `end_time` NULL (the invariant holds). -/
def dbActiveOpen : DB :=
  { sessions := [⟨1, 100, 50, .active, none⟩]
  , session_users := [⟨1, 100, .teacher, 0, none⟩]
  , metrics := [] }

/-- C7 counterexample: SessionManager.endSession sets `end_time` but
leaves `status` untouched, so running it on an active session breaks the
invariant "end_time set iff status ≠ active" — not every operation
preserves it. -/
theorem manager_end_breaks_invariant :
    (∀ s ∈ dbActiveOpen.sessions, sessionInv s) ∧
      ¬ (∀ s ∈ (endSessionManager dbActiveOpen 1 7).sessions, sessionInv s) := by
  exact ⟨by decide, by decide⟩

/-- C7 (amended): the end ROUTE preserves the invariant (on success the
ended session has `status = 'ended'` and `end_time` set, other sessions
are untouched); but SessionManager.endSession does not preserve it, since
it sets `end_time` while leaving `status` unchanged. -/
theorem end_route_preserves_invariant (db : DB) (sid uid now : Nat) (db' : DB)
    (hok : endSessionRoute db sid uid now = .ok db')
    (hinv : ∀ s ∈ db.sessions, sessionInv s) :
    ∀ s ∈ db'.sessions, sessionInv s := by
  cases hfind : findSession db sid with
  | none => simp [endSessionRoute, hfind] at hok
  | some s =>
    simp only [endSessionRoute, hfind] at hok
    by_cases hTeach : s.teacher_id ≠ uid
    · rw [if_pos hTeach] at hok
      simp at hok
    · rw [if_neg hTeach] at hok
      by_cases hEnded : s.status = SessionStatus.ended
      · rw [if_pos hEnded] at hok
        simp at hok
      · rw [if_neg hEnded] at hok
        rw [Except.ok.injEq] at hok
        subst hok
        intro x hx
        obtain ⟨a, ha, rfl⟩ := List.mem_map.1 hx
        by_cases hcase : a.id = sid
        · rw [if_pos hcase]
          simp [sessionInv]
        · rw [if_neg hcase]
          exact hinv a ha

/-- Witness for `end_route_preserves_invariant` at a concrete input: the
session produced by ending the cancelled session satisfies the invariant. -/
theorem end_route_preserves_invariant_witness :
    sessionInv ⟨1, 100, 50, .ended, some 9⟩ :=
  end_route_preserves_invariant dbCancelled 1 100 9
    { dbCancelled with sessions := [⟨1, 100, 50, .ended, some 9⟩] }
    (by decide) (by decide) ⟨1, 100, 50, .ended, some 9⟩ (by decide)

/-! ### C8: report for a nonexistent session -/

/-- The empty database: no sessions, no memberships, no metrics. -/
def dbEmpty : DB := { sessions := [], session_users := [], metrics := [] }

/-- C8 counterexample: requesting the report of a nonexistent session
fails with 403 SESSION_ACCESS_DENIED, not 404 SESSION_NOT_FOUND — the
membership gate runs before the existence check, and a missing session
has no membership rows. -/
theorem report_missing_session_cex :
    findSession dbEmpty 1 = none ∧
      generateSessionReport dbEmpty 1 5 = .error .accessDenied ∧
        generateSessionReport dbEmpty 1 5 ≠ .error .sessionNotFound := by
  decide

/-- C8 (amended): in any database satisfying the session_users foreign
key (every membership row's session exists), a report request for a
session that does not exist fails with SESSION_ACCESS_DENIED; the
handler's SESSION_NOT_FOUND branch is unreachable for missing sessions. -/
theorem report_missing_session_access_denied (db : DB) (sid uid : Nat)
    (hfk : ∀ r ∈ db.session_users, ∃ s ∈ db.sessions, s.id = r.session_id)
    (h : findSession db sid = none) :
    generateSessionReport db sid uid = .error .accessDenied := by
  have hmem : membershipRows db sid uid = [] := by
    unfold membershipRows
    rw [List.filter_eq_nil_iff]
    intro r hr hpr
    have hpr' : r.session_id = sid ∧ r.user_id = uid := by simpa using hpr
    obtain ⟨s, hs, hid⟩ := hfk r hr
    have hne : ¬ (s.id = sid) := by
      have hnone := List.find?_eq_none.1 h s hs
      simpa using hnone
    exact hne (hid.trans hpr'.1)
  unfold generateSessionReport
  rw [if_pos hmem]

/-- Witness for `report_missing_session_access_denied` at the empty
database. -/
theorem report_missing_session_access_denied_witness :
    generateSessionReport dbEmpty 1 5 = .error .accessDenied :=
  report_missing_session_access_denied dbEmpty 1 5 (by decide) (by decide)

/-! ### C9: trend buckets partition the session's metric log -/

/-- C9: the report's minute buckets are keyed by the timestamp floored to
the minute (every bucket key is a multiple of 60), and the sum of
`metric_count` over all of a session's trend buckets equals the session's
total recorded metric count. -/
theorem trend_buckets_partition_total (db : DB) (sid : Nat) :
    ((timeData db sid).map (fun b => b.metric_count)).sum = totalMetrics db sid ∧
      (timeData db sid).all (fun b => b.time_bucket % 60 = 0) = true := by
  constructor
  · unfold timeData totalMetrics
    rw [List.map_map]
    show (((sessionMetrics db sid).map fun m => bucketKeyFn m.timestamp).dedup.map
        (fun k => ((sessionMetrics db sid).filter
          (fun m => bucketKeyFn m.timestamp == k)).length)).sum
      = (sessionMetrics db sid).length
    have hcount : ∀ k : Nat,
        ((sessionMetrics db sid).filter
            (fun m => bucketKeyFn m.timestamp == k)).length
          = ((sessionMetrics db sid).map fun m => bucketKeyFn m.timestamp).count k := by
      intro k
      rw [List.count_eq_countP, List.countP_map, List.countP_eq_length_filter]
      rfl
    simp only [hcount]
    rw [List.sum_map_count_dedup_eq_length, List.length_map]
  · rw [List.all_eq_true]
    intro b hb
    obtain ⟨k, hk, rfl⟩ := List.mem_map.1 hb
    obtain ⟨m, hm, rfl⟩ := List.mem_map.1 (List.mem_dedup.1 hk)
    simp only [decide_eq_true_eq]
    exact Nat.mul_mod_left _ _

/-! ### C10: rejoin after leave, and leave retains the row -/

/-- C10: any existing membership row for (session, user) — including one
whose `left_at` is set because the user previously left — makes a new
join of that active session fail with USER_ALREADY_IN_SESSION; and leave
never deletes the row: it succeeds, keeps the roster length, and the
(session, user) membership row still exists afterwards. -/
theorem rejoin_rejected_and_leave_retains_row (db : DB) (sid uid now : Nat)
    (r : Role) (s : Session)
    (hs : findActiveSession db sid = some s)
    (hm : membershipRows db sid uid ≠ []) :
    joinSession db sid uid r now = .error .userAlreadyInSession ∧
      ∃ db', leaveSession db sid uid now = .ok db' ∧
        db'.session_users.length = db.session_users.length ∧
          membershipRows db' sid uid ≠ [] := by
  constructor
  · simp only [joinSession, hs]
    rw [if_pos hm]
  · have hok : leaveSession db sid uid now
        = .ok { db with session_users := db.session_users.map (fun x =>
            if x.session_id = sid ∧ x.user_id = uid then { x with left_at := some now }
            else x) } := by
      unfold leaveSession
      rw [if_neg hm]
    refine ⟨_, hok, by simp, ?_⟩
    have hex : ∃ x ∈ db.session_users, x.session_id = sid ∧ x.user_id = uid := by
      by_contra hcon
      push_neg at hcon
      apply hm
      unfold membershipRows
      rw [List.filter_eq_nil_iff]
      intro a ha hpa
      exact absurd (by simpa using hpa) (by simpa using hcon a ha)
    obtain ⟨x, hx, hpx⟩ := hex
    intro hnil
    have hxin : (if x.session_id = sid ∧ x.user_id = uid
          then { x with left_at := some now } else x)
        ∈ membershipRows { db with session_users := db.session_users.map (fun y =>
            if y.session_id = sid ∧ y.user_id = uid then { y with left_at := some now }
            else y) } sid uid := by
      unfold membershipRows
      rw [List.mem_filter]
      refine ⟨List.mem_map_of_mem _ hx, ?_⟩
      rw [if_pos hpx]
      simp only [decide_eq_true_eq]
      exact ⟨hpx.1, hpx.2⟩
    rw [hnil] at hxin
    exact List.not_mem_nil _ hxin

/-- Witness for `rejoin_rejected_and_leave_retains_row`: student 2 left
session 1 (`left_at = 5`), the session is active, rejoin is rejected and
a fresh leave keeps the row. -/
theorem rejoin_rejected_and_leave_retains_row_witness :
    joinSession dbDeparted 1 2 Role.student 10 = .error .userAlreadyInSession ∧
      ∃ db', leaveSession dbDeparted 1 2 10 = .ok db' ∧
        db'.session_users.length = dbDeparted.session_users.length ∧
          membershipRows db' 1 2 ≠ [] :=
  rejoin_rejected_and_leave_retains_row dbDeparted 1 2 10 .student
    ⟨1, 100, 1, .active, none⟩ (by decide) (by decide)

end EmotionEngagement
